import Mathlib

/-!
A verification development for the query engine of the chiselstrike server
(`server/src/query/engine.rs`).  The engine persists typed objects into a
relational backing store: it creates/alters/drops backing tables from an
`ObjectType` schema, inserts rows from JSON-like structured values
(`add_row`), and converts result rows back to structured values
(`relational_row_to_json`).

The embedding below translates the engine's code into Lean.  Database
effects (opening a transaction, executing a statement, committing) are
recorded as an explicit event trace, so that claims of the form "no
statement is executed / no transaction is opened before the failure" become
statements about the trace.  Statements built through the `sea_query`
statement builder (`create_table`, `alter_table`) are recorded structurally
together with the dialect (`Kind`) whose grammar was used to build them,
since the builder itself is an external library; the `INSERT` statement of
`add_row` is built by string formatting in the engine itself and is recorded
as its literal SQL text.  Store-side failures (`ExecuteFailed`,
`ConnectionFailed`) are not modelled: the store is assumed to accept every
statement, which is irrelevant to the claims below (they are all about the
engine's behaviour before the store is reached, or about what is handed to
the store).
-/

namespace Chisel

/-- Modelled from the spec (the `Kind` enum lives outside the extracted
sources): the active backing-store dialect, an embedded-file store (SQLite)
or a client-server store (Postgres).  The engine code names `Kind::Postgres`
explicitly in `alter_table`. -/
inductive Kind where
  | postgres
  | sqlite
deriving DecidableEq, Repr

/-- Modelled from the spec (the `Type` enum lives outside the extracted
sources): a field's type, one of `String | Int | Float | Boolean | Id |
Object(ObjectType)`.  The payload of `Object` is never inspected by the
engine (every match on it unconditionally fails), so it is omitted here. -/
inductive FieldType where
  | string
  | int
  | id
  | float
  | boolean
  | object
deriving DecidableEq, Repr

/-- Modelled from the spec (the `Field` struct lives outside the extracted
sources): a named, typed field.  `default` is the field's optional
default-value generator; per the spec the generated default is "expressed as
text", so the generator is modelled as an optional string
(`generate_value` below).  The `is_unique` / `is_optional` / `labels`
attributes are never read by the engine code and are omitted. -/
structure Field where
  name : String
  type_ : FieldType
  default : Option String
deriving DecidableEq, Repr

/-- Modelled from the spec: `field.generate_value()` invokes the field's
default-value generator, yielding the default expressed as text when the
field has one. -/
def Field.generate_value (f : Field) : Option String :=
  f.default

/-- Modelled from the spec (the `ObjectType` struct lives outside the
extracted sources): a named entity with an ordered list of fields
(`all_fields` iterates them in declaration order) and a derived
backing-table name (`backing_table`). -/
structure ObjectType where
  name : String
  backing_table : String
  fields : List Field
deriving DecidableEq, Repr

/-- Modelled from the spec (the `ObjectDelta` struct lives outside the
extracted sources): the field-level difference between two versions of an
`ObjectType`. -/
structure ObjectDelta where
  added_fields : List Field
  removed_fields : List Field
  modified_fields : List Field
deriving DecidableEq, Repr

/-- Modelled from the spec (`QueryError` lives outside the extracted
sources); the constructors and their payloads are exactly those the engine
code constructs: `NotImplemented(feature)` and
`IncompatibleData(field name, value/type description)`.  `ConnectionFailed`
and `ExecuteFailed` wrap store errors and carry no modelled payload. -/
inductive QueryError where
  | connection_failed
  | execute_failed
  | not_implemented (feature : String)
  | incompatible_data (field_name : String) (info : String)
deriving DecidableEq, Repr

/-- The textual representation of a JSON `f64` number: either an integer
read as a float, or a non-integral number carried by its decimal
representation.  Floating-point arithmetic is never performed by the engine
(values are only moved between representations), so this symbolic
representation is faithful. -/
inductive FloatVal where
  | ofInt (n : Int)
  | ofRepr (r : String)
deriving DecidableEq, Repr

/-- A JSON number as `serde_json` stores it: backed by an `i64` or by an
`f64`.  `as_i64` succeeds only on the former; `as_f64` succeeds on both. -/
inductive JNum where
  | i (n : Int)
  | f (v : FloatVal)
deriving DecidableEq, Repr

/-- A `serde_json::Value`. -/
inductive JsonValue where
  | jnull
  | jbool (b : Bool)
  | jnum (n : JNum)
  | jstr (s : String)
  | jarr (xs : List JsonValue)
  | jobj (kvs : List (String × JsonValue))

/-- `serde_json::Value::get(key)`: on an object, look the key up; on any
other value, `None`. -/
def JsonValue.get (v : JsonValue) (key : String) : Option JsonValue :=
  match v with
  | .jobj kvs => kvs.lookup key
  | _ => none

/-- `serde_json::Value::as_str`. -/
def JsonValue.as_str : JsonValue → Option String
  | .jstr s => some s
  | _ => none

/-- `serde_json::Value::as_i64`: succeeds only on an integer-backed
number. -/
def JsonValue.as_i64 : JsonValue → Option Int
  | .jnum (.i n) => some n
  | _ => none

/-- `serde_json::Value::as_f64`: succeeds on any number. -/
def JsonValue.as_f64 : JsonValue → Option FloatVal
  | .jnum (.i n) => some (.ofInt n)
  | .jnum (.f v) => some v
  | _ => none

/-- `serde_json::Value::as_bool`. -/
def JsonValue.as_bool : JsonValue → Option Bool
  | .jbool b => some b
  | _ => none

/-- A value bound as a statement parameter (`sqlx` bind). -/
inductive SqlParam where
  | pstr (s : String)
  | pint (n : Int)
  | pfloat (v : FloatVal)
  | pbool (b : Bool)
deriving DecidableEq, Repr

/-- Rust's `str::parse::<bool>`: exactly `"true"` and `"false"`. -/
def parse_bool (s : String) : Option Bool :=
  if s = "true" then some true
  else if s = "false" then some false
  else none

/-- Rust's `str::parse::<i64>`, modelled as decimal-integer parsing with the
`i64` range check. -/
def parse_i64 (s : String) : Option Int :=
  match s.toInt? with
  | some n => if -(2 ^ 63) ≤ n ∧ n < 2 ^ 63 then some n else none
  | none => none

/-- Rust's `str::parse::<f64>`, modelled on plain decimal forms: an integer
literal, or `<integer>.<digits>` carried symbolically. -/
def parse_f64 (s : String) : Option FloatVal :=
  match s.toInt? with
  | some n => some (.ofInt n)
  | none =>
    match s.splitOn "." with
    | [a, b] =>
      if (a.toInt?).isSome ∧ b ≠ "" ∧ b.all Char.isDigit then
        some (.ofRepr s)
      else none
    | _ => none

/-- One iteration of `add_row`'s binding loop (`engine.rs` lines 244-294):
for a field, find its value in the structured input.  If present, coerce via
the `as_*` accessor matching the field's native type, failing with
`IncompatibleData(field, type name)` on a dynamic-type mismatch
(`bind_json_value!`).  If absent, invoke the default-value generator,
failing with the same error when there is none; a generated default is bound
directly for string-typed columns and otherwise parsed from text into the
native type, failing with `IncompatibleData(field, default text)` on a parse
error (`bind_default_json_value!`).  `Object`-typed fields fail with
`NotImplemented`. -/
def bind_field (ty : ObjectType) (ty_value : JsonValue) (field : Field) :
    Except QueryError SqlParam :=
  match field.type_ with
  | .string =>
    match ty_value.get field.name with
    | some value_json =>
      match value_json.as_str with
      | some s => .ok (.pstr s)
      | none => .error (.incompatible_data field.name ty.name)
    | none =>
      match field.generate_value with
      | some value => .ok (.pstr value)
      | none => .error (.incompatible_data field.name ty.name)
  | .int =>
    match ty_value.get field.name with
    | some value_json =>
      match value_json.as_i64 with
      | some n => .ok (.pint n)
      | none => .error (.incompatible_data field.name ty.name)
    | none =>
      match field.generate_value with
      | some value =>
        match parse_i64 value with
        | some n => .ok (.pint n)
        | none => .error (.incompatible_data field.name value)
      | none => .error (.incompatible_data field.name ty.name)
  | .id =>
    match ty_value.get field.name with
    | some value_json =>
      match value_json.as_str with
      | some s => .ok (.pstr s)
      | none => .error (.incompatible_data field.name ty.name)
    | none =>
      match field.generate_value with
      | some value => .ok (.pstr value)
      | none => .error (.incompatible_data field.name ty.name)
  | .float =>
    match ty_value.get field.name with
    | some value_json =>
      match value_json.as_f64 with
      | some v => .ok (.pfloat v)
      | none => .error (.incompatible_data field.name ty.name)
    | none =>
      match field.generate_value with
      | some value =>
        match parse_f64 value with
        | some v => .ok (.pfloat v)
        | none => .error (.incompatible_data field.name value)
      | none => .error (.incompatible_data field.name ty.name)
  | .boolean =>
    match ty_value.get field.name with
    | some value_json =>
      match value_json.as_bool with
      | some b => .ok (.pbool b)
      | none => .error (.incompatible_data field.name ty.name)
    | none =>
      match field.generate_value with
      | some value =>
        match parse_bool value with
        | some b => .ok (.pbool b)
        | none => .error (.incompatible_data field.name value)
      | none => .error (.incompatible_data field.name ty.name)
  | .object => .error (.not_implemented "support for type Object")

/-- The full binding loop of `add_row`: fields are bound in declaration
order onto the accumulating parameter list of the prepared statement; the
first failure aborts the loop, leaving the parameters bound so far
visible (the statement object has already absorbed them). -/
def add_row_bind_loop (ty : ObjectType) (ty_value : JsonValue) :
    List Field → List SqlParam → List SqlParam × Option QueryError
  | [], acc => (acc, none)
  | field :: rest, acc =>
    match bind_field ty ty_value field with
    | .error e => (acc, some e)
    | .ok p => add_row_bind_loop ty ty_value rest (acc ++ [p])

/-- Rust's `String::pop`: remove the last character (a no-op on the empty
string). -/
def str_pop (s : String) : String :=
  ⟨s.data.dropLast⟩

/-- The comma-then-pop accumulation of `add_row` (`engine.rs` lines
228-234): each element is pushed followed by a `,`. -/
def pushed_with_commas : List String → String
  | [] => ""
  | s :: rest => s ++ "," ++ pushed_with_commas rest

/-- The `$1,...,$n` placeholder list: the loop pushes `"$" ++ (i+1)` for
each field index `i`. -/
def placeholder_list (n : Nat) : List String :=
  (List.range n).map (fun i => "$" ++ toString (i + 1))

/-- Comma-separated rendering of a list of strings, the form the statement
text is specified in. -/
def comma_separated : List String → String
  | [] => ""
  | [s] => s
  | s :: rest => s ++ "," ++ comma_separated rest

/-- Whether a JSON value's dynamic type matches a field's native column
type: exactly the success condition of the `as_*` accessor `add_row` uses
for that field type (`as_str` / `as_i64` / `as_f64` / `as_bool`). -/
def json_matches : FieldType → JsonValue → Bool
  | .string, v => v.as_str.isSome
  | .id, v => v.as_str.isSome
  | .int, v => v.as_i64.isSome
  | .float, v => v.as_f64.isSome
  | .boolean, v => v.as_bool.isSome
  | .object, _ => false

/-- The SQL text of `add_row`'s statement (`engine.rs` lines 225-241):
`INSERT INTO <backing_table> (<field names each followed by a comma, last
comma popped>) VALUES (<placeholders likewise>)`. -/
def add_row_query_text (ty : ObjectType) : String :=
  "INSERT INTO " ++ ty.backing_table ++ " (" ++
    str_pop (pushed_with_commas (ty.fields.map Field.name)) ++ ") VALUES (" ++
    str_pop (pushed_with_commas (placeholder_list ty.fields.length)) ++ ")"

/-- A column definition as built by `TryFrom<&Field> for ColumnDef`
(`engine.rs` lines 57-76). -/
inductive ColType where
  | text
  | integer
  | double
  | boolean
deriving DecidableEq, Repr

/-- The structural content of a `sea_query::ColumnDef` the engine builds:
name, column type, and the unique-key / primary-key markers (set only for
`Id`). -/
structure ColumnDef where
  name : String
  col_type : ColType
  unique_key : Bool
  primary_key : Bool
deriving DecidableEq, Repr

/-- `TryFrom<&Field> for ColumnDef` (`engine.rs` lines 57-76): `String/Id →
text`, `Int → integer`, `Float → double`, `Boolean → boolean`, `Id`
additionally unique + primary key; `Object` fails with
`NotImplemented("support for type Object")`. -/
def ColumnDef.try_from (field : Field) : Except QueryError ColumnDef :=
  match field.type_ with
  | .string => .ok ⟨field.name, .text, false, false⟩
  | .int => .ok ⟨field.name, .integer, false, false⟩
  | .id => .ok ⟨field.name, .text, true, true⟩
  | .float => .ok ⟨field.name, .double, false, false⟩
  | .boolean => .ok ⟨field.name, .boolean, false, false⟩
  | .object => .error (.not_implemented "support for type Object")

/-- A clause of an `ALTER TABLE` statement as the engine assembles it. -/
inductive AlterClause where
  | add_column (c : ColumnDef)
  | drop_column (name : String)
deriving DecidableEq, Repr

/-- The structural content of a table statement handed to the `sea_query`
builder. -/
inductive TableSpec where
  | create (table : String) (if_not_exists : Bool) (cols : List ColumnDef)
  | alter (table : String) (clauses : List AlterClause)
  | drop (table : String)
deriving DecidableEq, Repr

/-- A statement as executed: either raw SQL text with bound parameters
(`add_row`'s formatted INSERT), or a builder statement together with the
dialect whose grammar (`build_any(get_query_builder(kind))`) rendered it. -/
inductive Stmt where
  | raw (sql : String) (params : List SqlParam)
  | built (dialect : Kind) (spec : TableSpec)
deriving DecidableEq, Repr

/-- An observable database effect.  `create_table` / `alter_table` /
`drop_table` run on a caller-supplied transaction and emit only `execute`
events; `add_row` opens, uses and commits its own transaction. -/
inductive DbEvent where
  | begin_tx
  | execute (s : Stmt)
  | commit_tx
deriving DecidableEq, Repr

/-- `QueryEngine::add_row` (`engine.rs` lines 219-310): build the INSERT
text from the type alone, bind one parameter per field in declaration order
(any binding failure returns the error before any store interaction), then
open a dedicated transaction, execute, and commit. -/
def add_row (ty : ObjectType) (ty_value : JsonValue) :
    List DbEvent × Except QueryError Unit :=
  match add_row_bind_loop ty ty_value ty.fields [] with
  | (params, none) =>
    ([.begin_tx, .execute (.raw (add_row_query_text ty) params), .commit_tx],
     .ok ())
  | (_, some e) => ([], .error e)

/-- The column-construction loop shared by `create_table` and
`alter_table`'s added-fields pass: convert each field via
`ColumnDef::try_from`, aborting on the first failure. -/
def columns_of : List Field → Except QueryError (List ColumnDef)
  | [] => .ok []
  | f :: fs =>
    match ColumnDef.try_from f with
    | .error e => .error e
    | .ok c =>
      match columns_of fs with
      | .error e => .error e
      | .ok cs => .ok (c :: cs)

/-- `QueryEngine::create_table` (`engine.rs` lines 134-156): build a
`CREATE TABLE IF NOT EXISTS` statement with one column per field (failing
per field on `Object`), render it with the engine's own dialect, and execute
it on the caller's transaction. -/
def create_table (kind : Kind) (ty : ObjectType) :
    List DbEvent × Except QueryError Unit :=
  match columns_of ty.fields with
  | .error e => ([], .error e)
  | .ok cols =>
    ([.execute (.built kind (.create ty.backing_table true cols))], .ok ())

/-- `QueryEngine::drop_table` (`engine.rs` lines 98-114). -/
def drop_table (kind : Kind) (ty : ObjectType) :
    List DbEvent × Except QueryError Unit :=
  ([.execute (.built kind (.drop ty.backing_table))], .ok ())

/-- `QueryEngine::alter_table` (`engine.rs` lines 158-213): add one
`ADD COLUMN` clause per added field (failing per field on `Object`) and one
`DROP COLUMN` clause per removed field; `modified_fields` is deliberately
ignored.  If neither loop ran, return success without executing anything.
Otherwise render the single `ALTER TABLE` statement with the Postgres
builder — `build_any(get_query_builder(&Kind::Postgres))`, ignoring the
engine's own `kind` — and execute it on the caller's transaction. -/
def alter_table (kind : Kind) (old_ty : ObjectType) (delta : ObjectDelta) :
    List DbEvent × Except QueryError Unit :=
  match columns_of delta.added_fields with
  | .error e => ([], .error e)
  | .ok added_cols =>
    if delta.added_fields.isEmpty && delta.removed_fields.isEmpty then
      ([], .ok ())
    else
      ([.execute (.built .postgres (.alter old_ty.backing_table
          (added_cols.map AlterClause.add_column ++
           delta.removed_fields.map (fun f => AlterClause.drop_column f.name))))],
       .ok ())

/-- Decidable equality for `Except` results, used to evaluate the engine's
outcomes on concrete inputs. -/
instance {ε α : Type} [DecidableEq ε] [DecidableEq α] :
    DecidableEq (Except ε α) := fun a b =>
  match a, b with
  | .ok x, .ok y =>
    if h : x = y then .isTrue (by rw [h])
    else .isFalse (by intro hc; cases hc; exact h rfl)
  | .error x, .error y =>
    if h : x = y then .isTrue (by rw [h])
    else .isFalse (by intro hc; cases hc; exact h rfl)
  | .ok _, .error _ => .isFalse (by intro hc; cases hc)
  | .error _, .ok _ => .isFalse (by intro hc; cases hc)

/-- A structured value (`serde_json::Map<String, Value>`), modelled as an
ordered association list. -/
abbrev JsonObject := List (String × JsonValue)

/-- `serde_json::Map::insert`: replace the value at an existing key, or
append a new entry. -/
def JsonObject.insert (m : JsonObject) (k : String) (v : JsonValue) :
    JsonObject :=
  if m.any (fun p => p.1 = k) then
    m.map (fun p => if p.1 = k then (k, v) else p)
  else m ++ [(k, v)]

/-- A column of a result row (`sqlx::Column`): its name and its ordinal. -/
structure ResultColumn where
  name : String
  ordinal : Nat
deriving DecidableEq, Repr

/-- A cell of a result row, as typed by the store. -/
inductive SqlValue where
  | vfloat (v : FloatVal)
  | vint (n : Int)
  | vtext (s : String)
  | vbool (b : Bool)
deriving DecidableEq, Repr

/-- A result row (`sqlx::any::AnyRow`): its column descriptors and its
cells, indexed by ordinal. -/
structure AnyRow where
  cols : List ResultColumn
  cells : List SqlValue
deriving DecidableEq, Repr

/-- `row.get::<f64>(i)`: decode cell `i` as a double; any other content (or
a missing ordinal) is a decode failure, which `sqlx`'s `Row::get` turns into
a panic. -/
def AnyRow.get_f64 (row : AnyRow) (i : Nat) : Option FloatVal :=
  match row.cells.get? i with
  | some (.vfloat v) => some v
  | _ => none

/-- `row.get::<i64>(i)`. -/
def AnyRow.get_i64 (row : AnyRow) (i : Nat) : Option Int :=
  match row.cells.get? i with
  | some (.vint n) => some n
  | _ => none

/-- `row.get::<&str>(i)`. -/
def AnyRow.get_text (row : AnyRow) (i : Nat) : Option String :=
  match row.cells.get? i with
  | some (.vtext s) => some s
  | _ => none

/-- `row.get::<bool>(i)`. -/
def AnyRow.get_bool (row : AnyRow) (i : Nat) : Option Bool :=
  match row.cells.get? i with
  | some (.vbool b) => some b
  | _ => none

/-- The per-column body of `relational_row_to_json`'s loop, declared-type
driven: decode the cell at the result column's ordinal as the declared
type's native representation and wrap it as JSON (`to_json!`).  Returns
`none` exactly when `row.get` would panic.  `Object` never decodes (the
caller reaches `unreachable!` before asking). -/
def cell_json (row : AnyRow) (t : FieldType) (i : Nat) : Option JsonValue :=
  match t with
  | .float => (row.get_f64 i).map (fun v => .jnum (.f v))
  | .int => (row.get_i64 i).map (fun n => .jnum (.i n))
  | .string => (row.get_text i).map .jstr
  | .id => (row.get_text i).map .jstr
  | .boolean => (row.get_bool i).map .jbool
  | .object => none

/-- How a run of `relational_row_to_json` can abort: the `unreachable!`
branch for a declared `Object` column (a logic defect), or a decode panic
from `row.get` on an ill-typed or missing cell.  Both are panics in the
source; the embedding separates them so the two abort causes can be told
apart. -/
inductive RowPanic where
  | unreachable_object
  | decode_panic
deriving DecidableEq, Repr

/-- The loop of `relational_row_to_json` (`engine.rs` lines 318-336) over
the zipped (declared column, result column) pairs: for each pair, match on
the declared type (`Object` hits `unreachable!`), decode the cell at the
result column's ordinal, and insert the JSON value keyed by the result
column's name. -/
def row_loop (row : AnyRow) :
    List ((String × FieldType) × ResultColumn) → JsonObject →
    Except RowPanic JsonObject
  | [], acc => .ok acc
  | (query_column, result_column) :: rest, acc =>
    if query_column.2 = .object then .error .unreachable_object
    else
      match cell_json row query_column.2 result_column.ordinal with
      | none => .error .decode_panic
      | some val =>
        row_loop row rest (acc.insert result_column.name val)

/-- `relational_row_to_json` (`engine.rs` lines 313-338): zip the declared
`(name, type)` columns with the row's result columns (truncating to the
shorter list, as `itertools::zip` does) and run the loop on an initially
empty structured value. -/
def relational_row_to_json (columns : List (String × FieldType))
    (row : AnyRow) : Except RowPanic JsonObject :=
  row_loop row (columns.zip row.cols) []

example :
    relational_row_to_json [("a", .int)] ⟨[⟨"x", 0⟩], [.vint 5]⟩ =
      .ok [("x", .jnum (.i 5))] := by
  rfl

example :
    relational_row_to_json [("a", .object)] ⟨[⟨"x", 0⟩], [.vint 5]⟩ =
      .error .unreachable_object := by
  rfl

example :
    add_row ⟨"T", "t", [⟨"a", .string, none⟩]⟩ (.jobj [("a", .jstr "x")]) =
      ([.begin_tx,
        .execute (.raw "INSERT INTO t (a) VALUES ($1)" [.pstr "x"]),
        .commit_tx], .ok ()) := by
  rfl

example :
    add_row ⟨"T", "t", [⟨"a", .string, none⟩, ⟨"b", .int, none⟩]⟩
        (.jobj []) =
      ([], .error (.incompatible_data "a" "T")) := by
  rfl

example :
    alter_table .sqlite ⟨"T", "t", []⟩ ⟨[⟨"e", .string, none⟩], [], []⟩ =
      ([.execute (.built .postgres (.alter "t"
          [.add_column ⟨"e", .text, false, false⟩]))], .ok ()) := by
  rfl

lemma pushed_with_commas_data_ne_nil (s : String) (ss : List String) :
    (pushed_with_commas (s :: ss)).data ≠ [] := by
  show (s ++ "," ++ pushed_with_commas ss).data ≠ []
  simp [String.data_append]

lemma str_pop_pushed_with_commas (ss : List String) :
    str_pop (pushed_with_commas ss) = comma_separated ss := by
  induction ss with
  | nil => rfl
  | cons s rest ih =>
    cases rest with
    | nil =>
      apply String.ext
      show (s ++ "," ++ pushed_with_commas []).data.dropLast = s.data
      simp [pushed_with_commas, String.data_append]
    | cons s' rest' =>
      apply String.ext
      show (s ++ "," ++ pushed_with_commas (s' :: rest')).data.dropLast =
        (s ++ "," ++ comma_separated (s' :: rest')).data
      simp only [String.data_append, ← List.append_assoc]
      rw [List.dropLast_append_of_ne_nil _ (pushed_with_commas_data_ne_nil s' rest')]
      have hdata : (pushed_with_commas (s' :: rest')).data.dropLast =
          (comma_separated (s' :: rest')).data := congrArg String.data ih
      rw [hdata]

lemma add_row_query_text_eq (ty : ObjectType) :
    add_row_query_text ty =
      "INSERT INTO " ++ ty.backing_table ++ " (" ++
        comma_separated (ty.fields.map Field.name) ++ ") VALUES (" ++
        comma_separated (placeholder_list ty.fields.length) ++ ")" := by
  unfold add_row_query_text
  rw [str_pop_pushed_with_commas, str_pop_pushed_with_commas]

lemma bind_field_ok_of_ne_object (ty : ObjectType) (v : JsonValue)
    (f : Field) (h : f.type_ ≠ .object)
    (he : ∀ e, bind_field ty v f ≠ .error e) :
    ∃ p, bind_field ty v f = .ok p := by
  cases hb : bind_field ty v f with
  | ok p => exact ⟨p, rfl⟩
  | error e => exact absurd hb (he e)

lemma bind_loop_skips_ok_pre (ty : ObjectType) (v : JsonValue)
    (pre rest : List Field)
    (hpre : ∀ g ∈ pre, ∃ p, bind_field ty v g = .ok p) :
    ∀ acc, ∃ qs, add_row_bind_loop ty v (pre ++ rest) acc =
      add_row_bind_loop ty v rest (acc ++ qs) := by
  induction pre with
  | nil => intro acc; exact ⟨[], by simp⟩
  | cons g pre' ih =>
    intro acc
    obtain ⟨p, hp⟩ := hpre g (by simp)
    obtain ⟨qs, hqs⟩ := ih (fun g' hg' => hpre g' (by simp [hg'])) (acc ++ [p])
    refine ⟨p :: qs, ?_⟩
    show add_row_bind_loop ty v (g :: (pre' ++ rest)) acc = _
    rw [add_row_bind_loop, hp]
    dsimp only
    rw [hqs]
    simp

lemma add_row_error_of_field (ty : ObjectType) (v : JsonValue)
    (pre : List Field) (f : Field) (post : List Field) (e : QueryError)
    (hfields : ty.fields = pre ++ f :: post)
    (hpre : ∀ g ∈ pre, ∃ p, bind_field ty v g = .ok p)
    (hf : bind_field ty v f = .error e) :
    add_row ty v = ([], .error e) := by
  obtain ⟨qs, hqs⟩ := bind_loop_skips_ok_pre ty v pre (f :: post) hpre []
  have hloop : add_row_bind_loop ty v ty.fields [] = ([] ++ qs, some e) := by
    rw [hfields, hqs, add_row_bind_loop, hf]
  unfold add_row
  rw [hloop]

lemma bind_loop_forall2 (ty : ObjectType) (v : JsonValue) :
    ∀ (fs : List Field) (acc ps : List SqlParam),
      add_row_bind_loop ty v fs acc = (ps, none) →
      ∃ qs, ps = acc ++ qs ∧
        List.Forall₂ (fun f p => bind_field ty v f = .ok p) fs qs := by
  intro fs
  induction fs with
  | nil =>
    intro acc ps h
    refine ⟨[], ?_, .nil⟩
    have : acc = ps := congrArg Prod.fst (by exact h)
    simp [← this]
  | cons f rest ih =>
    intro acc ps h
    rw [add_row_bind_loop] at h
    cases hb : bind_field ty v f with
    | error e => rw [hb] at h; exact absurd (congrArg Prod.snd h) (by simp)
    | ok p =>
      rw [hb] at h
      obtain ⟨qs, hps, hfa⟩ := ih (acc ++ [p]) ps h
      exact ⟨p :: qs, by simp [hps], .cons hb hfa⟩

lemma columns_of_object_mem (fs : List Field)
    (h : ∃ f ∈ fs, f.type_ = .object) :
    columns_of fs = .error (.not_implemented "support for type Object") := by
  induction fs with
  | nil => simp at h
  | cons f rest ih =>
    by_cases hf : f.type_ = FieldType.object
    · rw [columns_of]
      have : ColumnDef.try_from f =
          .error (.not_implemented "support for type Object") := by
        unfold ColumnDef.try_from
        rw [hf]
      rw [this]
    · obtain ⟨g, hg, hgty⟩ := h
      rcases List.mem_cons.mp hg with rfl | hg'
      · exact absurd hgty hf
      · have htail := ih ⟨g, hg', hgty⟩
        rw [columns_of]
        have : ∃ c, ColumnDef.try_from f = .ok c := by
          unfold ColumnDef.try_from
          cases hty : f.type_ <;> simp_all
        obtain ⟨c, hc⟩ := this
        rw [hc, htail]

lemma columns_of_length (fs : List Field) (cs : List ColumnDef)
    (h : columns_of fs = .ok cs) : cs.length = fs.length := by
  induction fs generalizing cs with
  | nil =>
    rw [columns_of] at h
    cases h
    rfl
  | cons f rest ih =>
    rw [columns_of] at h
    cases hf : ColumnDef.try_from f with
    | error e => rw [hf] at h; cases h
    | ok c =>
      rw [hf] at h
      cases hr : columns_of rest with
      | error e => rw [hr] at h; cases h
      | ok cs' =>
        rw [hr] at h
        cases h
        simp [ih cs' hr]

lemma isSome_eq_false_iff_none {α : Type} (o : Option α) :
    o.isSome = false ↔ o = none := by
  cases o <;> simp

lemma row_loop_no_unreachable (row : AnyRow)
    (pairs : List ((String × FieldType) × ResultColumn))
    (hno : ∀ p ∈ pairs, p.1.2 ≠ FieldType.object) :
    ∀ acc, row_loop row pairs acc ≠ .error .unreachable_object := by
  induction pairs with
  | nil => intro acc h; cases h
  | cons p rest ih =>
    intro acc
    obtain ⟨qc, rc⟩ := p
    rw [row_loop]
    have hq : qc.2 ≠ FieldType.object := hno (qc, rc) (by simp)
    rw [if_neg hq]
    cases hc : cell_json row qc.2 rc.ordinal with
    | none => simp
    | some val => exact ih (fun p hp => hno p (by simp [hp])) _

lemma JsonObject.insert_fresh (m : JsonObject) (k : String) (v : JsonValue)
    (h : ∀ q ∈ m, q.1 ≠ k) : m.insert k v = m ++ [(k, v)] := by
  unfold JsonObject.insert
  have hfalse : ¬(m.any (fun p => p.1 = k) = true) := by
    rw [List.any_eq_true]
    rintro ⟨q, hq, hqk⟩
    exact h q hq (by simpa using hqk)
  rw [if_neg hfalse]

lemma row_loop_ok_of_decodes (row : AnyRow) :
    ∀ (pairs : List ((String × FieldType) × ResultColumn)),
    (∀ p ∈ pairs, p.1.2 ≠ FieldType.object) →
    (∀ p ∈ pairs, (cell_json row p.1.2 p.2.ordinal).isSome) →
    (pairs.map (fun p => p.2.name)).Nodup →
    ∀ acc : JsonObject, (∀ q ∈ acc, ∀ p ∈ pairs, q.1 ≠ p.2.name) →
    row_loop row pairs acc =
      .ok (acc ++ pairs.map
        (fun p => (p.2.name, (cell_json row p.1.2 p.2.ordinal).getD .jnull))) := by
  intro pairs
  induction pairs with
  | nil => intro _ _ _ acc _; simp [row_loop]
  | cons p rest ih =>
    intro hno hdec hnd acc hacc
    obtain ⟨qc, rc⟩ := p
    rw [row_loop]
    rw [if_neg (hno (qc, rc) (by simp))]
    cases hval : cell_json row qc.2 rc.ordinal with
    | none =>
      have := hdec (qc, rc) (by simp)
      rw [show ((qc, rc) : (String × FieldType) × ResultColumn).1.2 = qc.2
        from rfl] at this
      rw [hval] at this
      cases this
    | some val =>
      show row_loop row rest (acc.insert rc.name val) = _
      rw [JsonObject.insert_fresh acc rc.name val
        (fun q hq => hacc q hq (qc, rc) (by simp))]
      have hnd0 := hnd
      rw [List.map_cons, List.nodup_cons] at hnd0
      obtain ⟨hhead, hnd'⟩ := hnd0
      rw [ih (fun p hp => hno p (by simp [hp]))
        (fun p hp => hdec p (by simp [hp])) hnd'
        (acc ++ [(rc.name, val)]) ?_]
      · simp [hval]
      · intro q hq p hp
        rcases List.mem_append.mp hq with hq' | hq'
        · exact hacc q hq' p (by simp [hp])
        · have hqv : q = (rc.name, val) := by simpa using hq'
          subst hqv
          intro hcontra
          exact hhead (List.mem_map.mpr ⟨p, hp, by simpa using hcontra.symm⟩)

lemma add_row_raw_exec_text (ty : ObjectType) (v : JsonValue)
    (s : String) (ps : List SqlParam)
    (h : DbEvent.execute (.raw s ps) ∈ (add_row ty v).1) :
    s = add_row_query_text ty := by
  unfold add_row at h
  cases hloop : add_row_bind_loop ty v ty.fields [] with
  | mk params err =>
    cases err with
    | none => rw [hloop] at h; simp at h; exact h.1
    | some e => rw [hloop] at h; simp at h

/-- C1 (counterexample): the claim quantifies over every absent-no-default
field, but `add_row` reports only the first binding failure in declaration
order.  For the type `T{a: String, b: Int}` (no defaults) and the empty
structured input, field `b` is absent with no default, yet the error names
`a`, not `b`.  Moreover, an absent no-default `Object`-typed field (type
`U{o: Object}`, empty input) produces `NotImplemented`, not
`IncompatibleData`. -/
theorem add_row_missing_field_cex :
    ((⟨"b", .int, none⟩ : Field) ∈
      (⟨"T", "t", [⟨"a", .string, none⟩, ⟨"b", .int, none⟩]⟩ :
        ObjectType).fields ∧
    (JsonValue.jobj []).get "b" = none ∧
    (⟨"b", .int, none⟩ : Field).generate_value = none ∧
    (add_row ⟨"T", "t", [⟨"a", .string, none⟩, ⟨"b", .int, none⟩]⟩
        (.jobj [])).2 ≠
      .error (.incompatible_data "b" "T")) ∧
    ((JsonValue.jobj []).get "o" = none ∧
    (⟨"o", .object, none⟩ : Field).generate_value = none ∧
    (add_row ⟨"U", "u", [⟨"o", .object, none⟩]⟩ (.jobj [])).2 ≠
      .error (.incompatible_data "o" "U")) := by
  exact ⟨⟨by decide, rfl, rfl, by decide⟩, ⟨rfl, rfl, by decide⟩⟩

/-- C1 (amended): if a non-`Object` field is absent from the structured
input and has no default-value generator, and every field before it binds
successfully, then `add_row` fails with `IncompatibleData` naming that field
and the owning type, with no transaction opened and nothing executed (the
event trace is empty). -/
theorem add_row_missing_required_field
    (ty : ObjectType) (v : JsonValue) (pre : List Field) (f : Field)
    (post : List Field)
    (hfields : ty.fields = pre ++ f :: post)
    (hpre : ∀ g ∈ pre, ∃ p, bind_field ty v g = .ok p)
    (habsent : v.get f.name = none)
    (hnodef : f.generate_value = none)
    (hty : f.type_ ≠ FieldType.object) :
    add_row ty v = ([], .error (.incompatible_data f.name ty.name)) := by
  apply add_row_error_of_field ty v pre f post _ hfields hpre
  unfold bind_field
  cases h : f.type_ <;> simp_all

/-- C1 (witness): a single required string field with no default and an
empty input object makes `add_row` fail with `IncompatibleData("a", "T")`
and an empty event trace. -/
theorem add_row_missing_required_field_witness :
    add_row ⟨"T", "t", [⟨"a", .string, none⟩]⟩ (.jobj []) =
      ([], .error (.incompatible_data "a" "T")) :=
  add_row_missing_required_field ⟨"T", "t", [⟨"a", .string, none⟩]⟩
    (.jobj []) [] ⟨"a", .string, none⟩ [] rfl (by simp) rfl rfl (by decide)

/-- C2 (counterexample): the claim promises `NotImplemented` "never with a
different error kind" and "before any parameter binding occurs" for every
type containing an `Object` field.  For `T2{a: Int, b: Object}`: with input
`{a: "x"}` the earlier field's coercion failure wins and the error is
`IncompatibleData`, not `NotImplemented`; and with input `{a: 1}` the
parameter for `a` is bound before the `Object` failure is reached. -/
theorem add_row_object_cex :
    (⟨"b", .object, none⟩ : Field) ∈
      (⟨"T2", "t2", [⟨"a", .int, none⟩, ⟨"b", .object, none⟩]⟩ :
        ObjectType).fields ∧
    (add_row ⟨"T2", "t2", [⟨"a", .int, none⟩, ⟨"b", .object, none⟩]⟩
        (.jobj [("a", .jstr "x")])).2 ≠
      .error (.not_implemented "support for type Object") ∧
    add_row_bind_loop ⟨"T2", "t2", [⟨"a", .int, none⟩, ⟨"b", .object, none⟩]⟩
        (.jobj [("a", .jnum (.i 1))])
        [⟨"a", .int, none⟩, ⟨"b", .object, none⟩] [] =
      ([.pint 1], some (.not_implemented "support for type Object")) := by
  refine ⟨by decide, by decide, rfl⟩

/-- C2 (amended): if every field before an `Object`-typed field binds
successfully, `add_row` fails with `NotImplemented("support for type
Object")`, with no transaction opened and nothing executed (the event trace
is empty); parameters for the preceding fields are bound in memory before
the failure, and an earlier field's binding failure is reported instead of
`NotImplemented`. -/
theorem add_row_object_field_not_implemented
    (ty : ObjectType) (v : JsonValue) (pre : List Field) (f : Field)
    (post : List Field)
    (hfields : ty.fields = pre ++ f :: post)
    (hpre : ∀ g ∈ pre, ∃ p, bind_field ty v g = .ok p)
    (hobj : f.type_ = FieldType.object) :
    add_row ty v = ([], .error (.not_implemented "support for type Object")) := by
  apply add_row_error_of_field ty v pre f post _ hfields hpre
  unfold bind_field
  rw [hobj]

/-- C2 (witness): a type whose only field is `Object`-typed makes `add_row`
fail with `NotImplemented` and an empty event trace. -/
theorem add_row_object_field_not_implemented_witness :
    add_row ⟨"T", "t", [⟨"o", .object, none⟩]⟩ (.jobj []) =
      ([], .error (.not_implemented "support for type Object")) :=
  add_row_object_field_not_implemented ⟨"T", "t", [⟨"o", .object, none⟩]⟩
    (.jobj []) [] ⟨"o", .object, none⟩ [] rfl (by simp) rfl

/-- C3: for a delta with at least one added or removed field, none of the
added fields being `Object`-typed, `alter_table` executes exactly one
statement on the caller's transaction: an `ALTER TABLE` on the old type's
backing table with one `ADD COLUMN` clause per added field (in order)
followed by one `DROP COLUMN` clause per removed field, built with the
Postgres dialect's grammar; and the whole behaviour is independent of the
`Kind` the engine was constructed with. -/
theorem alter_table_postgres_statement
    (kind : Kind) (old_ty : ObjectType) (delta : ObjectDelta)
    (cols : List ColumnDef)
    (hcols : columns_of delta.added_fields = .ok cols)
    (hne : ¬(delta.added_fields = [] ∧ delta.removed_fields = [])) :
    alter_table kind old_ty delta =
      ([.execute (.built .postgres (.alter old_ty.backing_table
          (cols.map AlterClause.add_column ++
           delta.removed_fields.map (fun f => AlterClause.drop_column f.name))))],
       .ok ()) ∧
    cols.length = delta.added_fields.length ∧
    ∀ kind' : Kind, alter_table kind' old_ty delta =
      alter_table kind old_ty delta := by
  have hcond : (delta.added_fields.isEmpty && delta.removed_fields.isEmpty) =
      false := by
    rcases delta with ⟨af, rf, mf⟩
    cases af <;> cases rf <;> simp_all
  refine ⟨?_, columns_of_length _ _ hcols, ?_⟩
  · unfold alter_table
    rw [hcols, hcond]
    rfl
  · intro kind'
    unfold alter_table
    rw [hcols]

/-- C3 (witness): a delta adding `e: String` and removing `r: Int` against a
SQLite engine yields the single Postgres-grammar `ALTER TABLE` with one add
and one drop clause, and the Postgres engine produces the same result. -/
theorem alter_table_postgres_statement_witness :
    alter_table .sqlite ⟨"T", "t", []⟩
        ⟨[⟨"e", .string, none⟩], [⟨"r", .int, none⟩], []⟩ =
      ([.execute (.built .postgres (.alter "t"
          [.add_column ⟨"e", .text, false, false⟩, .drop_column "r"]))],
       .ok ()) ∧
    alter_table .postgres ⟨"T", "t", []⟩
        ⟨[⟨"e", .string, none⟩], [⟨"r", .int, none⟩], []⟩ =
      alter_table .sqlite ⟨"T", "t", []⟩
        ⟨[⟨"e", .string, none⟩], [⟨"r", .int, none⟩], []⟩ := by
  have h := alter_table_postgres_statement .sqlite ⟨"T", "t", []⟩
    ⟨[⟨"e", .string, none⟩], [⟨"r", .int, none⟩], []⟩
    [⟨"e", .text, false, false⟩] rfl (by simp)
  exact ⟨h.1, h.2.2 .postgres⟩

/-- C4: a delta with no added and no removed fields (whatever its modified
fields) makes `alter_table` return success with an empty event trace: no
statement is executed and the store is untouched. -/
theorem alter_table_empty_delta_noop
    (kind : Kind) (old_ty : ObjectType) (delta : ObjectDelta)
    (hadd : delta.added_fields = [])
    (hrem : delta.removed_fields = []) :
    alter_table kind old_ty delta = ([], .ok ()) := by
  rcases delta with ⟨af, rf, mf⟩
  simp only at hadd hrem
  subst hadd hrem
  rfl

/-- C4 (witness): an empty-add empty-remove delta with a nonempty
modified-fields list is a no-op on a concrete engine and type. -/
theorem alter_table_empty_delta_noop_witness :
    alter_table .sqlite ⟨"T", "t", [⟨"a", .string, none⟩]⟩
        ⟨[], [], [⟨"a", .string, some "x"⟩]⟩ = ([], .ok ()) :=
  alter_table_empty_delta_noop .sqlite ⟨"T", "t", [⟨"a", .string, none⟩]⟩
    ⟨[], [], [⟨"a", .string, some "x"⟩]⟩ rfl rfl

/-- C5: a type containing any `Object`-typed field, at any position, makes
`create_table` fail with exactly `NotImplemented("support for type
Object")` — never another error kind — and an empty event trace: the
failure comes from per-field column construction, before any statement is
built or executed. -/
theorem create_table_object_not_implemented
    (kind : Kind) (ty : ObjectType)
    (h : ∃ f ∈ ty.fields, f.type_ = FieldType.object) :
    create_table kind ty =
      ([], .error (.not_implemented "support for type Object")) := by
  unfold create_table
  rw [columns_of_object_mem ty.fields h]

/-- C5 (witness): a type with an `Object` field in second position fails
`create_table` with `NotImplemented` and no events. -/
theorem create_table_object_not_implemented_witness :
    create_table .postgres
        ⟨"T", "t", [⟨"a", .string, none⟩, ⟨"o", .object, none⟩]⟩ =
      ([], .error (.not_implemented "support for type Object")) :=
  create_table_object_not_implemented .postgres
    ⟨"T", "t", [⟨"a", .string, none⟩, ⟨"o", .object, none⟩]⟩
    ⟨⟨"o", .object, none⟩, by decide, rfl⟩

/-- C6 (counterexample): the claim says a present field whose JSON dynamic
type mismatches fails "naming the field", for every such field; but with
two mismatching `Int` fields `a` and `b` (input `{a: "x", b: "y"}`) the
error names `a`, not `b`, because binding stops at the first failure. -/
theorem add_row_insert_and_mismatch_cex :
    (JsonValue.jobj [("a", .jstr "x"), ("b", .jstr "y")]).get "b" =
      some (.jstr "y") ∧
    json_matches .int (.jstr "y") = false ∧
    (add_row ⟨"T6", "t6", [⟨"a", .int, none⟩, ⟨"b", .int, none⟩]⟩
        (.jobj [("a", .jstr "x"), ("b", .jstr "y")])).2 ≠
      .error (.incompatible_data "b" "T6") := by
  refine ⟨rfl, rfl, by decide⟩

/-- C6 (amended): (1) `add_row`'s statement text is `INSERT INTO
<backing_table> (<comma-separated field names in declaration order>) VALUES
($1,...,$n)`; (2) when the binding loop succeeds it binds exactly one
parameter per field, in declaration order, each the result of that field's
binding; (3) a present non-`Object` field whose JSON dynamic type does not
match the field's native type causes an `IncompatibleData` error naming the
field and the owning type — provided every earlier field binds successfully
(otherwise the earlier failure is reported instead) — with no transaction
opened and nothing executed. -/
theorem add_row_insert_statement
    (ty : ObjectType) (v : JsonValue) :
    (add_row_query_text ty =
      "INSERT INTO " ++ ty.backing_table ++ " (" ++
        comma_separated (ty.fields.map Field.name) ++ ") VALUES (" ++
        comma_separated (placeholder_list ty.fields.length) ++ ")") ∧
    (∀ ps : List SqlParam, add_row_bind_loop ty v ty.fields [] = (ps, none) →
      List.Forall₂ (fun f p => bind_field ty v f = .ok p) ty.fields ps) ∧
    (∀ (pre : List Field) (f : Field) (post : List Field) (vj : JsonValue),
      ty.fields = pre ++ f :: post →
      (∀ g ∈ pre, ∃ p, bind_field ty v g = .ok p) →
      f.type_ ≠ FieldType.object →
      v.get f.name = some vj →
      json_matches f.type_ vj = false →
      add_row ty v = ([], .error (.incompatible_data f.name ty.name))) := by
  refine ⟨add_row_query_text_eq ty, ?_, ?_⟩
  · intro ps hps
    obtain ⟨qs, hqs, hfa⟩ := bind_loop_forall2 ty v ty.fields [] ps hps
    simpa [hqs] using hfa
  · intro pre f post vj hfields hpre hty hsome hmis
    apply add_row_error_of_field ty v pre f post _ hfields hpre
    unfold bind_field
    unfold json_matches at hmis
    cases h : f.type_ <;> simp_all [isSome_eq_false_iff_none]

/-- C6 (witness): for `T6w{a: String, b: Int}` the statement text is
`INSERT INTO t (a,b) VALUES ($1,$2)`; the input `{a: "u", b: 3}` binds
exactly the two parameters in order; and the input `{a: "u", b: "y"}`
(mismatch on `b`, the second field) fails naming `b` and `T6w` with an
empty trace. -/
theorem add_row_insert_statement_witness :
    add_row_query_text ⟨"T6w", "t", [⟨"a", .string, none⟩, ⟨"b", .int, none⟩]⟩ =
      "INSERT INTO t (a,b) VALUES ($1,$2)" ∧
    List.Forall₂
      (fun f p => bind_field
        ⟨"T6w", "t", [⟨"a", .string, none⟩, ⟨"b", .int, none⟩]⟩
        (.jobj [("a", .jstr "u"), ("b", .jnum (.i 3))]) f = .ok p)
      [⟨"a", .string, none⟩, ⟨"b", .int, none⟩] [.pstr "u", .pint 3] ∧
    add_row ⟨"T6w", "t", [⟨"a", .string, none⟩, ⟨"b", .int, none⟩]⟩
        (.jobj [("a", .jstr "u"), ("b", .jstr "y")]) =
      ([], .error (.incompatible_data "b" "T6w")) := by
  refine ⟨?_, ?_, ?_⟩
  · rw [(add_row_insert_statement
      ⟨"T6w", "t", [⟨"a", .string, none⟩, ⟨"b", .int, none⟩]⟩ (.jobj [])).1]
    rfl
  · exact (add_row_insert_statement
      ⟨"T6w", "t", [⟨"a", .string, none⟩, ⟨"b", .int, none⟩]⟩
      (.jobj [("a", .jstr "u"), ("b", .jnum (.i 3))])).2.1
      [.pstr "u", .pint 3] rfl
  · exact (add_row_insert_statement
      ⟨"T6w", "t", [⟨"a", .string, none⟩, ⟨"b", .int, none⟩]⟩
      (.jobj [("a", .jstr "u"), ("b", .jstr "y")])).2.2
      [⟨"a", .string, none⟩] ⟨"b", .int, none⟩ [] (.jstr "y") rfl
      (by intro g hg
          have : g = ⟨"a", .string, none⟩ := by simpa using hg
          subst this
          exact ⟨.pstr "u", rfl⟩)
      (by decide) rfl rfl

/-- C7: if the declared column list contains no `Object` type, the row
codec's run can never end in the `unreachable!` branch (the `Object` arm);
and when additionally every zipped (declared column, result column) pair
decodes and the result column names (over the zipped prefix) are distinct,
it returns the structured value keyed by the result columns' names — not
the declared names — with each value the declared type's native coercion of
the cell at the result column's ordinal. -/
theorem relational_row_to_json_no_object
    (columns : List (String × FieldType)) (row : AnyRow)
    (hno : ∀ p ∈ columns, p.2 ≠ FieldType.object) :
    relational_row_to_json columns row ≠ .error .unreachable_object ∧
    ((∀ p ∈ columns.zip row.cols,
        (cell_json row p.1.2 p.2.ordinal).isSome = true) →
      ((columns.zip row.cols).map (fun p => p.2.name)).Nodup →
      relational_row_to_json columns row =
        .ok ((columns.zip row.cols).map
          (fun p =>
            (p.2.name, (cell_json row p.1.2 p.2.ordinal).getD .jnull)))) := by
  have hnoz : ∀ p ∈ columns.zip row.cols, p.1.2 ≠ FieldType.object := by
    intro p hp
    exact hno p.1 (List.of_mem_zip hp).1
  constructor
  · exact row_loop_no_unreachable row (columns.zip row.cols) hnoz []
  · intro hdec hnd
    unfold relational_row_to_json
    rw [row_loop_ok_of_decodes row (columns.zip row.cols) hnoz hdec hnd []
      (by intro q hq; cases hq)]
    rfl

/-- C7 (witness): one declared column `("a", Int)` against a result column
named `x` holding the integer cell `5` yields `{x: 5}` — keyed by the
result column's name — and does not hit the unreachable branch. -/
theorem relational_row_to_json_no_object_witness :
    relational_row_to_json [("a", .int)] ⟨[⟨"x", 0⟩], [.vint 5]⟩ =
      .ok [("x", .jnum (.i 5))] ∧
    relational_row_to_json [("a", .int)] ⟨[⟨"x", 0⟩], [.vint 5]⟩ ≠
      .error .unreachable_object := by
  have h := relational_row_to_json_no_object [("a", .int)]
    ⟨[⟨"x", 0⟩], [.vint 5]⟩ (by decide)
  refine ⟨?_, h.1⟩
  rw [h.2 (by decide) (by decide)]
  rfl

/-- C9: a delta whose added fields contain an `Object`-typed field makes
`alter_table` fail with `NotImplemented("support for type Object")` and an
empty event trace — nothing is executed on the caller's transaction.  The
rejection the spec states for `create_table` and `add_row` is enforced by
the shared column construction for `alter_table` too. -/
theorem alter_table_object_added_not_implemented
    (kind : Kind) (old_ty : ObjectType) (delta : ObjectDelta)
    (h : ∃ f ∈ delta.added_fields, f.type_ = FieldType.object) :
    alter_table kind old_ty delta =
      ([], .error (.not_implemented "support for type Object")) := by
  unfold alter_table
  rw [columns_of_object_mem delta.added_fields h]

/-- C9 (witness): adding an `Object` field through `alter_table` fails with
`NotImplemented` and no events.  -/
theorem alter_table_object_added_not_implemented_witness :
    alter_table .sqlite ⟨"T", "t", []⟩
        ⟨[⟨"o", .object, none⟩], [⟨"r", .int, none⟩], []⟩ =
      ([], .error (.not_implemented "support for type Object")) :=
  alter_table_object_added_not_implemented .sqlite ⟨"T", "t", []⟩
    ⟨[⟨"o", .object, none⟩], [⟨"r", .int, none⟩], []⟩
    ⟨⟨"o", .object, none⟩, by decide, rfl⟩

/-- C10: `add_row`'s SQL text depends only on the type's backing-table name
and field names — two types agreeing on those produce identical text — and
in any run, every executed raw statement carries exactly that text, so two
runs on arbitrary different input values execute statements with identical
SQL text (the data reaches the store only through the bound parameters). -/
theorem add_row_query_text_noninterference
    (ty ty' : ObjectType) (v₁ v₂ : JsonValue)
    (hbt : ty'.backing_table = ty.backing_table)
    (hnames : ty'.fields.map Field.name = ty.fields.map Field.name) :
    add_row_query_text ty' = add_row_query_text ty ∧
    (∀ (s : String) (ps : List SqlParam),
      DbEvent.execute (.raw s ps) ∈ (add_row ty v₁).1 →
      s = add_row_query_text ty) ∧
    (∀ (s₁ s₂ : String) (ps₁ ps₂ : List SqlParam),
      DbEvent.execute (.raw s₁ ps₁) ∈ (add_row ty v₁).1 →
      DbEvent.execute (.raw s₂ ps₂) ∈ (add_row ty v₂).1 → s₁ = s₂) := by
  have hlen : ty'.fields.length = ty.fields.length := by
    rw [← List.length_map ty'.fields Field.name, hnames, List.length_map]
  refine ⟨?_, ?_, ?_⟩
  · unfold add_row_query_text
    rw [hbt, hnames, hlen]
  · intro s ps h
    exact add_row_raw_exec_text ty v₁ s ps h
  · intro s₁ s₂ ps₁ ps₂ h₁ h₂
    rw [add_row_raw_exec_text ty v₁ s₁ ps₁ h₁,
      add_row_raw_exec_text ty v₂ s₂ ps₂ h₂]

/-- C10 (witness): two types differing in type name, field types and
defaults but sharing the backing table and field names have identical
INSERT text; and two runs over different inputs execute statements whose
SQL text coincides. -/
theorem add_row_query_text_noninterference_witness :
    add_row_query_text ⟨"Other", "t2", [⟨"a", .string, none⟩]⟩ =
      add_row_query_text ⟨"T", "t2", [⟨"a", .int, some "0"⟩]⟩ ∧
    "INSERT INTO t2 (a) VALUES ($1)" = "INSERT INTO t2 (a) VALUES ($1)" := by
  have h := add_row_query_text_noninterference
    ⟨"T", "t2", [⟨"a", .int, some "0"⟩]⟩
    ⟨"Other", "t2", [⟨"a", .string, none⟩]⟩
    (.jobj [("a", .jnum (.i 1))]) (.jobj [("a", .jnum (.i 7))]) rfl rfl
  exact ⟨h.1, h.2.2 "INSERT INTO t2 (a) VALUES ($1)"
    "INSERT INTO t2 (a) VALUES ($1)" [.pint 1] [.pint 7]
    (by decide) (by decide)⟩

end Chisel
